import Mathlib

/-!
Shallow embedding of the time-travel image transformer backend
(`src/main.py`).  The repository's own logic — request validation, image
normalization, response unwrapping with a speculative base64 decode, and
error-to-HTTP-status mapping — is embedded as pure Lean functions.  The
external collaborators (PIL, the Gemini client, the filesystem, base64)
are modelled as an explicit environment of fallible functions
(`Except String` results stand for Python calls that may raise).
-/

namespace TimeTravel

/-- Models a decoded PIL image handle: its reported `format` (e.g. "PNG",
"JPEG") and color `mode` (e.g. "RGB", "RGBA", "P"). -/
structure PILImage where
  format : String
  mode : String
deriving DecidableEq

/-- Models `part.inline_data` of a Gemini response part. -/
structure InlineData where
  mime_type : String
  data : List Nat
deriving DecidableEq

/-- Models one part of `response.candidates[0].content.parts`. -/
structure Part where
  inline_data : Option InlineData
  text : Option String
deriving DecidableEq

/-- Models the Gemini API response: the ordered parts of the first
candidate's content. -/
structure ModelResponse where
  parts : List Part
deriving DecidableEq

/-- Models the single `client.models.generate_content` request built in
`transform_image`: fixed model identifier, inline image payload
(mime type + bytes) and the text prompt. -/
structure ModelRequest where
  model : String
  mime_type : String
  data : List Nat
  prompt : String
deriving DecidableEq

/-- Models the `UploadFile` argument: declared content type plus the bytes
returned by `await file.read()`. -/
structure UploadFile where
  content_type : String
  data : List Nat
deriving DecidableEq

/-- Models a Python exception escaping a pipeline step: either a FastAPI
`HTTPException` (status code + detail) or any other exception, carried by
its message. -/
inductive Exc where
  | http (status : Nat) (detail : String)
  | other (msg : String)
deriving DecidableEq

/-- Models Python `str(e)`: Starlette's `HTTPException.__str__` renders
`"{status_code}: {detail}"`; other exceptions are their message. -/
def Exc.str : Exc → String
  | .http status detail => toString status ++ ": " ++ detail
  | .other msg => msg

/-- Models the value produced by the endpoint handler: either the
`StreamingResponse` (body bytes, media type, Content-Disposition header)
or an error response derived from an escaping `HTTPException`
(status code + detail of the JSON body). -/
inductive HandlerResult where
  | streaming (body : List Nat) (media_type : String) (content_disposition : String)
  | error (status : Nat) (detail : String)
deriving DecidableEq

/-- HTTP status of a handler result: a `StreamingResponse` is served with
status 200; an error response carries the `HTTPException` status. -/
def HandlerResult.status : HandlerResult → Nat
  | .streaming _ _ _ => 200
  | .error s _ => s

/-- The external collaborators of `transform_image`, as an explicit
environment:
* `pilOpen` — `Image.open(BytesIO(b))` followed by `verify()` and reopen
  (deterministic on the same bytes, so one function models both opens);
  `Except.error` is the raised exception's message;
* `encodeRGBPNG` — `img.convert("RGB").save(buffer, format="PNG")`,
  returning the buffer's bytes;
* `savePNG` — `new_img.save(output_buffer, format="PNG")` (no RGB
  conversion), returning the buffer's bytes; `Except.error` is a raised
  exception's message (the PNG writer raises for modes it cannot encode,
  e.g. "cannot write mode CMYK as PNG");
* `b64decode` — `base64.b64decode(b)`; `Except.error` is a raised
  `binascii.Error`;
* `genai` — `client.models.generate_content(...)`; `Except.error` is a
  transport/service exception's message;
* `debugWrite` — `open(fname, "wb").write(b)`; `Except.error` is a raised
  `OSError`'s message. -/
structure Env where
  pilOpen : List Nat → Except String PILImage
  encodeRGBPNG : PILImage → List Nat
  savePNG : PILImage → Except String (List Nat)
  b64decode : List Nat → Except String (List Nat)
  genai : ModelRequest → Except String ModelResponse
  debugWrite : String → List Nat → Except String Unit

/-- Python `s.startswith(pre)`, at the level of character lists (the
position-based `String.startsWith` does not reduce in the kernel). -/
def strStartsWith (s pre : String) : Bool :=
  List.isPrefixOf pre.data s.data

/-- Lines 113-117 of `main.py`: the list comprehension
`[part.inline_data.data for part in parts if part.inline_data]`. -/
def extractImageParts (response : ModelResponse) : List (List Nat) :=
  response.parts.filterMap fun p => p.inline_data.map InlineData.data

/-- The data of the first part carrying an inline binary payload, in
response order (reference definition used to state the selection
invariant). -/
def firstBinary : List Part → Option (List Nat)
  | [] => none
  | p :: ps =>
    match p.inline_data with
    | some d => some d.data
    | none => firstBinary ps

/-- Lines 71-84 of `main.py`: mime-type/format dispatch.  Input: the
declared content type, the uploaded bytes and the PIL image decoded from
them.  Output: the bytes and mime type forwarded to the Gemini call.
Conversion to RGB + PNG re-encode happens when the declared type is not
`image/png`/`image/jpeg`, or when it is but PIL's detected format is not
PNG; otherwise the original bytes pass through unchanged. -/
def normalize (env : Env) (mime_type : String) (image_data : List Nat)
    (original_img : PILImage) : List Nat × String :=
  if ¬ (mime_type = "image/png" ∨ mime_type = "image/jpeg") then
    (env.encodeRGBPNG original_img, "image/png")
  else
    if original_img.format ≠ "PNG" then
      (env.encodeRGBPNG original_img, "image/png")
    else
      (image_data, mime_type)

/-- Line 87 of `main.py`: the f-string prompt. -/
def promptFor (year : Int) : String :=
  "Transform this image to look like it was in " ++ toString year ++ ", realistic style."

/-- Line 127 of `main.py`: the f-string debug dump filename. -/
def rawBinName (year : Int) : String :=
  "raw_response_" ++ toString year ++ ".bin"

/-- Lines 91-107 of `main.py`: the request handed to
`client.models.generate_content` — fixed model id, the normalized inline
payload and the prompt. -/
def builtRequest (env : Env) (file : UploadFile) (original_img : PILImage)
    (prompt : String) : ModelRequest :=
  { model := "gemini-2.5-flash-image-preview"
    mime_type := (normalize env file.content_type file.data original_img).2
    data := (normalize env file.content_type file.data original_img).1
    prompt := prompt }

/-- Outcome of one execution of the body of the `try:` block, together
with the observable side effects: `writes` records the attempted debug
file writes (filename, bytes) and `calls` records the Gemini API calls
issued. -/
structure RunResult where
  result : Except Exc (List Nat)
  writes : List (String × List Nat)
  calls : List ModelRequest

/-- Lines 113-158 of `main.py` restricted to the response handling: part
extraction already done, this is the tail of the `try:` body from the
debug dump (line 127) through the speculative base64 decode (131-137),
the decode-and-verify of the transformed image (140-146) and the final
PNG serialization (149-151), for a given extracted parts list.  Included
in `pipelineWith` below; split out because it is the spec's Response
Unwrapper + Transfer Encoder stage. -/
def unwrapStage (env : Env) (fname : String) (request : ModelRequest)
    (response : ModelResponse) : RunResult :=
  match extractImageParts response with
  | [] =>
    { result := .error (.http 500 "No image data found in Gemini API response"),
      writes := [], calls := [request] }
  | first :: _ =>
    match env.debugWrite fname first with
    | .error e =>
      { result := .error (.other e), writes := [(fname, first)], calls := [request] }
    | .ok _ =>
      let image_data_decoded :=
        match env.b64decode first with
        | .ok decoded => decoded
        | .error _ => first
      match env.pilOpen image_data_decoded with
      | .error e =>
        { result := .error (.http 500 ("Error processing transformed image: " ++ e)),
          writes := [(fname, first)], calls := [request] }
      | .ok new_img =>
        match env.savePNG new_img with
        | .error e =>
          { result := .error (.other e), writes := [(fname, first)], calls := [request] }
        | .ok out =>
          { result := .ok out, writes := [(fname, first)], calls := [request] }

/-- Lines 46-158 of `main.py` (the body of the `try:` block), with the
two year-derived strings (prompt and debug filename) abstracted as
parameters to make explicit that the year enters the pipeline only
through them.  Each `raise HTTPException` becomes `Exc.http`; exceptions
raised by collaborators become `Exc.other`. -/
def pipelineWith (env : Env) (file : UploadFile) (prompt fname : String) : RunResult :=
  if strStartsWith file.content_type "image/" then
    let image_data := file.data
    if image_data = [] then
      { result := .error (.http 400 "Uploaded file is empty"), writes := [], calls := [] }
    else
      match env.pilOpen image_data with
      | .error e =>
        { result := .error (.http 400 ("Invalid image file: " ++ e)),
          writes := [], calls := [] }
      | .ok original_img =>
        let request := builtRequest env file original_img prompt
        match env.genai request with
        | .error e =>
          { result := .error (.other e), writes := [], calls := [request] }
        | .ok response => unwrapStage env fname request response
  else
    { result := .error (.http 400 "File must be an image"), writes := [], calls := [] }

/-- The body of the `try:` block of `transform_image` for a given year:
`pipelineWith` instantiated at the two f-strings of lines 87 and 127. -/
def transformInner (env : Env) (file : UploadFile) (year : Int) : RunResult :=
  pipelineWith env file (promptFor year) (rawBinName year)

/-- Lines 40-162 of `main.py`: the whole endpoint handler.  A successful
run returns the `StreamingResponse` of lines 154-158.  Any exception
escaping the `try:` body — including the handler's own 400/500
`HTTPException`s, since Starlette's `HTTPException` subclasses
`Exception` — is caught by the blanket `except Exception` of line 160 and
re-raised as `HTTPException(500, "Error processing image: " + str(e))`. -/
def transform_image (env : Env) (file : UploadFile) (year : Int) : RunResult :=
  let run := transformInner env file year
  match run.result with
  | .ok _ => run
  | .error e =>
    { result := .error (.http 500 ("Error processing image: " ++ Exc.str e)),
      writes := run.writes, calls := run.calls }

/-- The HTTP response produced from a handler run: the success value
becomes a 200 `StreamingResponse` with media type `image/png` and the
Content-Disposition header of line 157; an escaping `HTTPException`
becomes an error response with its status and detail. -/
def httpResponse (run : RunResult) (year : Int) : HandlerResult :=
  match run.result with
  | .ok body =>
    .streaming body "image/png"
      ("attachment; filename=time_travel_" ++ toString year ++ ".png")
  | .error (.http s d) => .error s d
  | .error (.other m) => .error 500 m

/-- The endpoint's observable HTTP response for a request. -/
def endpointResponse (env : Env) (file : UploadFile) (year : Int) : HandlerResult :=
  httpResponse (transform_image env file year) year

/-- Lines 35-38 of `main.py`, instrumented with the list of environment
variable reads performed: `API_KEY = os.getenv("GEMINI_API_KEY")` happens
once at module import; `if not API_KEY` (true for both a missing variable
and an empty string, Python falsiness) raises at import time, so the
process fails to start. -/
def startupTraced (getenv : String → Option String) : Except String String × List String :=
  let API_KEY := getenv "GEMINI_API_KEY"
  (match API_KEY with
   | none => .error "GEMINI_API_KEY not found in .env file"
   | some k =>
     if k = "" then .error "GEMINI_API_KEY not found in .env file"
     else .ok k,
   ["GEMINI_API_KEY"])

/-- Module start-up: the credential check of lines 35-38. -/
def startup (getenv : String → Option String) : Except String String :=
  (startupTraced getenv).1

/-- The process serves a request only if module import succeeded: a
start-up failure means no handler ever runs. -/
def serveRequest (getenv : String → Option String) (env : Env) (file : UploadFile)
    (year : Int) : Option HandlerResult :=
  match startup getenv with
  | .error _ => none
  | .ok _ => some (endpointResponse env file year)

/-! ### Concrete demonstration environment

A small executable environment used to evaluate the pipeline on concrete
inputs.  Byte strings are abbreviated: `[1]` stands for the bytes of an
RGB PNG upload, `[2]` for an RGBA PNG upload, `[5]` for a JPEG upload,
`[6]` for a raw payload decoding as a CMYK JPEG, `[7]` for the raw
(non-base64) PNG payload returned by the model, `[8]` for the output of
an RGB/PNG re-encode, `[9]` for the final PNG serialization. -/

/-- An RGB PNG as decoded by PIL. -/
def pngRGB : PILImage := { format := "PNG", mode := "RGB" }

/-- An RGBA PNG as decoded by PIL. -/
def pngRGBA : PILImage := { format := "PNG", mode := "RGBA" }

/-- An RGB JPEG as decoded by PIL. -/
def jpegRGB : PILImage := { format := "JPEG", mode := "RGB" }

/-- A CMYK JPEG as decoded by PIL: it opens and verifies fine, but PIL's
PNG writer cannot encode mode CMYK and raises at `save(format="PNG")`. -/
def cmykJPEG : PILImage := { format := "JPEG", mode := "CMYK" }

/-- A model response with exactly one inline binary part carrying `[7]`. -/
def demoResponse : ModelResponse :=
  { parts := [ { inline_data := some { mime_type := "image/png", data := [7] }, text := none } ] }

/-- Concrete environment: PIL decodes `[1]`/`[7]`/`[8]`/`[9]` as RGB PNG,
`[2]` as RGBA PNG and `[5]` as RGB JPEG; base64 decoding always raises
(the payloads are raw binary); the model call succeeds with
`demoResponse`; the debug write succeeds. -/
def demoEnv : Env :=
  { pilOpen := fun b =>
      if b = [1] then .ok pngRGB
      else if b = [2] then .ok pngRGBA
      else if b = [5] then .ok jpegRGB
      else if b = [6] then .ok cmykJPEG
      else if b = [7] then .ok pngRGB
      else if b = [8] then .ok pngRGB
      else if b = [9] then .ok pngRGB
      else .error "cannot identify image file"
    encodeRGBPNG := fun _ => [8]
    savePNG := fun _ => .ok [9]
    b64decode := fun _ => .error "Invalid base64-encoded string"
    genai := fun _ => .ok demoResponse
    debugWrite := fun _ _ => .ok () }

/-- `demoEnv` with a failing debug write (e.g. a full disk). -/
def demoEnvWriteFail : Env :=
  { demoEnv with debugWrite := fun _ _ => .error "disk full" }

/-- A well-formed RGB PNG upload. -/
def demoFile : UploadFile := { content_type := "image/png", data := [1] }

/-- A model response whose single inline binary part carries `[6]`, a
payload that decodes as a CMYK JPEG. -/
def cmykResponse : ModelResponse :=
  { parts := [ { inline_data := some { mime_type := "image/jpeg", data := [6] }, text := none } ] }

/-- `demoEnv` with the model returning the CMYK payload and a PNG writer
that, like PIL's, raises on mode CMYK. -/
def cmykEnv : Env :=
  { demoEnv with
    genai := fun _ => .ok cmykResponse
    savePNG := fun i =>
      if i.mode = "CMYK" then .error "cannot write mode CMYK as PNG" else .ok [9] }

/-! ### Structural lemmas about the pipeline -/

/-- The `except Exception` wrapper changes only the result, not the
side-effect traces. -/
theorem transform_image_writes (env : Env) (file : UploadFile) (year : Int) :
    (transform_image env file year).writes = (transformInner env file year).writes := by
  unfold transform_image
  cases h : (transformInner env file year).result <;> simp [h]

/-- The `except Exception` wrapper changes only the result, not the
side-effect traces. -/
theorem transform_image_calls (env : Env) (file : UploadFile) (year : Int) :
    (transform_image env file year).calls = (transformInner env file year).calls := by
  unfold transform_image
  cases h : (transformInner env file year).result <;> simp [h]

/-- When validation passes, the upload decodes, and the Gemini call
succeeds, the pipeline is exactly the unwrap stage on the returned
response. -/
theorem pipeline_reaches_unwrap (env : Env) (file : UploadFile)
    (prompt fname : String) (img : PILImage) (response : ModelResponse)
    (hct : strStartsWith file.content_type "image/" = true)
    (hne : file.data ≠ [])
    (hopen : env.pilOpen file.data = .ok img)
    (hgen : env.genai (builtRequest env file img prompt) = .ok response) :
    pipelineWith env file prompt fname
      = unwrapStage env fname (builtRequest env file img prompt) response := by
  unfold pipelineWith
  rw [hct]
  simp only [if_true, if_neg hne, hopen, hgen]

/-- Exhaustive case analysis of one pipeline run up to the Gemini call. -/
theorem pipeline_cases (env : Env) (file : UploadFile) (prompt fname : String) :
    (strStartsWith file.content_type "image/" = false ∧
      pipelineWith env file prompt fname =
        { result := .error (.http 400 "File must be an image"), writes := [], calls := [] })
    ∨ (strStartsWith file.content_type "image/" = true ∧ file.data = [] ∧
      pipelineWith env file prompt fname =
        { result := .error (.http 400 "Uploaded file is empty"), writes := [], calls := [] })
    ∨ (strStartsWith file.content_type "image/" = true ∧ file.data ≠ [] ∧
      ∃ e, env.pilOpen file.data = .error e ∧
        pipelineWith env file prompt fname =
          { result := .error (.http 400 ("Invalid image file: " ++ e)),
            writes := [], calls := [] })
    ∨ (strStartsWith file.content_type "image/" = true ∧ file.data ≠ [] ∧
      ∃ img, env.pilOpen file.data = .ok img ∧
        ((∃ e, env.genai (builtRequest env file img prompt) = .error e ∧
            pipelineWith env file prompt fname =
              { result := .error (.other e), writes := [],
                calls := [builtRequest env file img prompt] })
         ∨ (∃ response, env.genai (builtRequest env file img prompt) = .ok response ∧
            pipelineWith env file prompt fname =
              unwrapStage env fname (builtRequest env file img prompt) response))) := by
  cases hb : strStartsWith file.content_type "image/" with
  | false =>
    left
    exact ⟨rfl, by unfold pipelineWith; rw [hb]; simp⟩
  | true =>
    by_cases hne : file.data = []
    · right; left
      exact ⟨rfl, hne, by unfold pipelineWith; rw [hb]; simp [hne]⟩
    · cases hopen : env.pilOpen file.data with
      | error e =>
        right; right; left
        exact ⟨rfl, hne, e, rfl, by unfold pipelineWith; rw [hb]; simp [hne, hopen]⟩
      | ok img =>
        right; right; right
        refine ⟨rfl, hne, img, rfl, ?_⟩
        cases hgen : env.genai (builtRequest env file img prompt) with
        | error e =>
          left
          exact ⟨e, rfl, by unfold pipelineWith; rw [hb]; simp [hne, hopen, hgen]⟩
        | ok response =>
          right
          exact ⟨response, rfl, by unfold pipelineWith; rw [hb]; simp [hne, hopen, hgen]⟩

/-- Exhaustive case analysis of the unwrap stage. -/
theorem unwrap_cases (env : Env) (fname : String) (request : ModelRequest)
    (response : ModelResponse) :
    (extractImageParts response = [] ∧
      unwrapStage env fname request response =
        { result := .error (.http 500 "No image data found in Gemini API response"),
          writes := [], calls := [request] })
    ∨ (∃ first rest, extractImageParts response = first :: rest ∧
        ((∃ e, env.debugWrite fname first = .error e ∧
            unwrapStage env fname request response =
              { result := .error (.other e), writes := [(fname, first)], calls := [request] })
         ∨ (env.debugWrite fname first = .ok () ∧
            ((∃ e, env.pilOpen (match env.b64decode first with
                  | .ok decoded => decoded
                  | .error _ => first) = .error e ∧
              unwrapStage env fname request response =
                { result := .error (.http 500 ("Error processing transformed image: " ++ e)),
                  writes := [(fname, first)], calls := [request] })
             ∨ (∃ new_img, env.pilOpen (match env.b64decode first with
                  | .ok decoded => decoded
                  | .error _ => first) = .ok new_img ∧
                ((∃ e, env.savePNG new_img = .error e ∧
                  unwrapStage env fname request response =
                    { result := .error (.other e),
                      writes := [(fname, first)], calls := [request] })
                 ∨ (∃ out, env.savePNG new_img = .ok out ∧
                  unwrapStage env fname request response =
                    { result := .ok out,
                      writes := [(fname, first)], calls := [request] }))))))) := by
  cases hp : extractImageParts response with
  | nil =>
    left
    exact ⟨rfl, by unfold unwrapStage; rw [hp]⟩
  | cons first rest =>
    right
    refine ⟨first, rest, rfl, ?_⟩
    cases hw : env.debugWrite fname first with
    | error e =>
      left
      exact ⟨e, rfl, by unfold unwrapStage; rw [hp]; simp [hw]⟩
    | ok u =>
      right
      refine ⟨rfl, ?_⟩
      cases ho : env.pilOpen (match env.b64decode first with
          | .ok decoded => decoded
          | .error _ => first) with
      | error e =>
        left
        exact ⟨e, rfl, by unfold unwrapStage; rw [hp]; simp [hw, ho]⟩
      | ok new_img =>
        right
        refine ⟨new_img, rfl, ?_⟩
        cases hs : env.savePNG new_img with
        | error e =>
          left
          exact ⟨e, rfl, by unfold unwrapStage; rw [hp]; simp [hw, ho, hs]⟩
        | ok out =>
          right
          exact ⟨out, rfl, by unfold unwrapStage; rw [hp]; simp [hw, ho, hs]⟩

/-- Every Gemini call issued by a pipeline run is the request built from
the image decoded out of the upload. -/
theorem calls_shape (env : Env) (file : UploadFile) (prompt fname : String) :
    ∀ r ∈ (pipelineWith env file prompt fname).calls,
      ∃ img, env.pilOpen file.data = .ok img ∧ r = builtRequest env file img prompt := by
  intro r hr
  rcases pipeline_cases env file prompt fname with
    ⟨_, hrun⟩ | ⟨_, _, hrun⟩ | ⟨_, _, e, _, hrun⟩ | ⟨_, _, img, hopen, hrest⟩
  · rw [hrun] at hr; simp at hr
  · rw [hrun] at hr; simp at hr
  · rw [hrun] at hr; simp at hr
  · refine ⟨img, hopen, ?_⟩
    rcases hrest with ⟨e, _, hrun⟩ | ⟨response, _, hrun⟩
    · rw [hrun] at hr; simpa using hr
    · rw [hrun] at hr
      rcases unwrap_cases env fname (builtRequest env file img prompt) response with
        ⟨_, hu⟩ | ⟨first, rest, _, ⟨e, _, hu⟩ |
          ⟨_, ⟨e, _, hu⟩ | ⟨ni, _, ⟨e, _, hu⟩ | ⟨out, _, hu⟩⟩⟩⟩ <;>
        rw [hu] at hr <;> simpa using hr

/-- Every debug write attempted by a pipeline run targets the given
filename and carries the first extracted binary payload of the model
response delivered by the Gemini call. -/
theorem writes_shape (env : Env) (file : UploadFile) (prompt fname : String) :
    ∀ w ∈ (pipelineWith env file prompt fname).writes, w.1 = fname := by
  intro w hw
  rcases pipeline_cases env file prompt fname with
    ⟨_, hrun⟩ | ⟨_, _, hrun⟩ | ⟨_, _, e, _, hrun⟩ | ⟨_, _, img, hopen, hrest⟩
  · rw [hrun] at hw; simp at hw
  · rw [hrun] at hw; simp at hw
  · rw [hrun] at hw; simp at hw
  · rcases hrest with ⟨e, _, hrun⟩ | ⟨response, _, hrun⟩
    · rw [hrun] at hw; simp at hw
    · rw [hrun] at hw
      rcases unwrap_cases env fname (builtRequest env file img prompt) response with
        ⟨_, hu⟩ | ⟨first, rest, _, ⟨e, _, hu⟩ |
          ⟨_, ⟨e, _, hu⟩ | ⟨ni, _, ⟨e, _, hu⟩ | ⟨out, _, hu⟩⟩⟩⟩ <;>
        rw [hu] at hw <;> simp at hw <;> simp [hw]
/-- A successful pipeline result is always a successful PNG
serialization (`new_img.save(..., format="PNG")`) of some decoded
image. -/
theorem result_ok_savePNG (env : Env) (file : UploadFile) (prompt fname : String)
    (body : List Nat) (h : (pipelineWith env file prompt fname).result = .ok body) :
    ∃ img, env.savePNG img = .ok body := by
  rcases pipeline_cases env file prompt fname with
    ⟨_, hrun⟩ | ⟨_, _, hrun⟩ | ⟨_, _, e, _, hrun⟩ | ⟨_, _, img, hopen, hrest⟩
  · rw [hrun] at h; simp at h
  · rw [hrun] at h; simp at h
  · rw [hrun] at h; simp at h
  · rcases hrest with ⟨e, _, hrun⟩ | ⟨response, _, hrun⟩
    · rw [hrun] at h; simp at h
    · rw [hrun] at h
      rcases unwrap_cases env fname (builtRequest env file img prompt) response with
        ⟨_, hu⟩ | ⟨first, rest, _, ⟨e, _, hu⟩ |
          ⟨_, ⟨e, _, hu⟩ | ⟨ni, _, ⟨e, _, hu⟩ | ⟨out, hs, hu⟩⟩⟩⟩ <;>
        rw [hu] at h <;> simp at h
      exact ⟨ni, h ▸ hs⟩

/-- The head of the list comprehension over inline payloads is the first
part carrying an inline binary payload, in response order. -/
theorem filterMap_head_firstBinary (l : List Part) :
    (l.filterMap fun p => p.inline_data.map InlineData.data).head? = firstBinary l := by
  induction l with
  | nil => rfl
  | cons p ps ih =>
    cases h : p.inline_data with
    | none => simpa [List.filterMap_cons, h, firstBinary] using ih
    | some d => simp [List.filterMap_cons, h, firstBinary]

/-- `extractImageParts` selects, at its head, the first binary part of
the response. -/
theorem extract_head (response : ModelResponse) :
    (extractImageParts response).head? = firstBinary response.parts :=
  filterMap_head_firstBinary response.parts

/-- Computing the endpoint response from a successful inner run. -/
theorem endpointResponse_ok (env : Env) (file : UploadFile) (year : Int) (body : List Nat)
    (h : (transformInner env file year).result = .ok body) :
    endpointResponse env file year
      = .streaming body "image/png"
          ("attachment; filename=time_travel_" ++ toString year ++ ".png") := by
  unfold endpointResponse transform_image httpResponse
  simp [h]

/-- Computing the endpoint response from a failed inner run: the blanket
`except Exception` turns every inner exception into a 500. -/
theorem endpointResponse_error (env : Env) (file : UploadFile) (year : Int) (e : Exc)
    (h : (transformInner env file year).result = .error e) :
    endpointResponse env file year
      = .error 500 ("Error processing image: " ++ Exc.str e) := by
  unfold endpointResponse transform_image httpResponse
  simp [h]

/-- Once the pipeline reaches the unwrap stage with first payload `p`,
the write trace is exactly one write of `p` to the given dump file. -/
theorem reached_unwrap_writes (env : Env) (file : UploadFile) (year : Int)
    (img : PILImage) (response : ModelResponse) (p : List Nat) (ps : List (List Nat))
    (hct : strStartsWith file.content_type "image/" = true)
    (hne : file.data ≠ [])
    (hopen : env.pilOpen file.data = .ok img)
    (hgen : env.genai (builtRequest env file img (promptFor year)) = .ok response)
    (hp : extractImageParts response = p :: ps) :
    (transform_image env file year).writes = [(rawBinName year, p)] := by
  rw [transform_image_writes]
  unfold transformInner
  rw [pipeline_reaches_unwrap env file (promptFor year) (rawBinName year) img response
    hct hne hopen hgen]
  rcases unwrap_cases env (rawBinName year) (builtRequest env file img (promptFor year))
      response with
    ⟨hnil, hu⟩ | ⟨first, rest, hcons, hrest⟩
  · rw [hp] at hnil; exact absurd hnil (List.cons_ne_nil p ps)
  · rw [hp] at hcons
    obtain ⟨rfl, _⟩ : p = first ∧ ps = rest :=
      ⟨(List.cons.injEq _ _ _ _ ▸ hcons).1, (List.cons.injEq _ _ _ _ ▸ hcons).2⟩
    rcases hrest with ⟨e, _, hu⟩ |
      ⟨_, ⟨e, _, hu⟩ | ⟨ni, _, ⟨e, _, hu⟩ | ⟨out, _, hu⟩⟩⟩ <;> rw [hu]

/-! ### Claims -/

/-- C1: the claim states that input-validation failures (empty upload,
non-`image/` declared type, undecodable bytes) make `/transform-image/`
return HTTP 400 and never 500.  The code contradicts its own explicit
`raise HTTPException(status_code=400, ...)` statements: Starlette's
`HTTPException` subclasses `Exception`, so the blanket
`except Exception` of line 160 catches the 400s and re-raises them as
`HTTPException(500, "Error processing image: " + str(e))`.  Evaluating
the code: every response of the endpoint has status 200 or 500 — a 400
is impossible — and each of the three invalid inputs of the claim yields
a 500. -/
theorem validation_failures_return_500 :
    (∀ (env : Env) (file : UploadFile) (year : Int),
      (endpointResponse env file year).status = 200 ∨
      (endpointResponse env file year).status = 500)
    ∧ endpointResponse demoEnv { content_type := "text/plain", data := [3] } 1980
        = .error 500 "Error processing image: 400: File must be an image"
    ∧ endpointResponse demoEnv { content_type := "image/png", data := [] } 1980
        = .error 500 "Error processing image: 400: Uploaded file is empty"
    ∧ endpointResponse demoEnv { content_type := "image/png", data := [3] } 1980
        = .error 500
            "Error processing image: 400: Invalid image file: cannot identify image file" := by
  refine ⟨?_, by decide, by decide, by decide⟩
  intro env file year
  unfold endpointResponse httpResponse transform_image
  cases h : (transformInner env file year).result with
  | ok b => left; simp [h, HandlerResult.status]
  | error e => right; simp [h, HandlerResult.status]

/-- C8: the prompt submitted to the Gemini API is exactly the f-string
`"Transform this image to look like it was in {year}, realistic style."`
and the handler performs no bounds check on the year: the theorem holds
for every integer, and the pipeline is the year-free `pipelineWith`
instantiated at the two year-derived strings (prompt and debug dump
filename), so the year influences execution only through them. -/
theorem prompt_shape_and_no_year_check :
    ∀ (year : Int),
      promptFor year
        = "Transform this image to look like it was in " ++ toString year
            ++ ", realistic style."
      ∧ ∀ (env : Env) (file : UploadFile),
          transformInner env file year
            = pipelineWith env file (promptFor year) (rawBinName year)
          ∧ ∀ r ∈ (transform_image env file year).calls, r.prompt = promptFor year := by
  intro year
  refine ⟨rfl, fun env file => ⟨rfl, fun r hr => ?_⟩⟩
  rw [transform_image_calls] at hr
  obtain ⟨img, _, hreq⟩ :=
    calls_shape env file (promptFor year) (rawBinName year) r hr
  rw [hreq]
  rfl

/-- Witness for C8 at a concrete run: the call demoEnv issues for the 1980
request carries exactly the 1980 prompt. -/
theorem prompt_shape_and_no_year_check_witness :
    ({ model := "gemini-2.5-flash-image-preview", mime_type := "image/png", data := [1],
       prompt := promptFor 1980 } : ModelRequest).prompt = promptFor 1980 :=
  ((prompt_shape_and_no_year_check 1980).2 demoEnv demoFile).2 _ (by decide)

/-- C9 counterexample: the claim names the debug dump file
`debug_response_{year}.bin`; the code (line 127) writes
`raw_response_{year}.bin`.  On a concrete successful request for 1980
the only write performed targets `raw_response_1980.bin`, which differs
from the claimed name. -/
theorem debug_filename_cex :
    (transform_image demoEnv demoFile 1980).writes = [("raw_response_1980.bin", [7])]
    ∧ rawBinName 1980 ≠ "debug_response_1980.bin" := by
  exact ⟨by decide, by decide⟩

/-- C9 amended: every request that reaches the unwrapping stage with at
least one binary payload writes the raw payload bytes to the local file
`raw_response_{year}.bin` (not `debug_response_{year}.bin`): every write
performed targets that filename, and when the pipeline reaches the
unwrap stage with first payload `p` the write trace is exactly one write
of `p` to it. -/
theorem debug_dump_named_raw_response :
    ∀ (env : Env) (file : UploadFile) (year : Int),
      (∀ w ∈ (transform_image env file year).writes,
        w.1 = "raw_response_" ++ toString year ++ ".bin")
      ∧ ∀ (img : PILImage) (response : ModelResponse) (p : List Nat) (ps : List (List Nat)),
          strStartsWith file.content_type "image/" = true →
          file.data ≠ [] →
          env.pilOpen file.data = .ok img →
          env.genai (builtRequest env file img (promptFor year)) = .ok response →
          extractImageParts response = p :: ps →
          (transform_image env file year).writes
            = [("raw_response_" ++ toString year ++ ".bin", p)] := by
  intro env file year
  constructor
  · intro w hw
    rw [transform_image_writes] at hw
    exact writes_shape env file (promptFor year) (rawBinName year) w hw
  · intro img response p ps hct hne hopen hgen hp
    rw [reached_unwrap_writes env file year img response p ps hct hne hopen hgen hp]
    rfl

/-- Witness for C9 amended at a concrete run. -/
theorem debug_dump_named_raw_response_witness :
    (transform_image demoEnv demoFile 1980).writes
      = [("raw_response_" ++ toString (1980 : Int) ++ ".bin", [7])] :=
  ((debug_dump_named_raw_response demoEnv demoFile 1980).2 pngRGB demoResponse [7] []
    (by decide) (by decide) rfl rfl (by decide))

/-- C3 counterexample: a failure of the debug byte-dump write does change
the HTTP response.  `demoEnvWriteFail` differs from `demoEnv` only in
its `debugWrite` collaborator; with the write succeeding the request
returns the 200 streaming response, with the write raising `"disk
full"` the exception escapes to the blanket handler and the endpoint
returns 500. -/
theorem debug_write_failure_changes_response_cex :
    demoEnvWriteFail = { demoEnv with debugWrite := fun _ _ => Except.error "disk full" }
    ∧ endpointResponse demoEnv demoFile 1980
        = .streaming [9] "image/png" "attachment; filename=time_travel_1980.png"
    ∧ endpointResponse demoEnvWriteFail demoFile 1980
        = .error 500 "Error processing image: disk full"
    ∧ endpointResponse demoEnvWriteFail demoFile 1980 ≠ endpointResponse demoEnv demoFile 1980 := by
  exact ⟨rfl, by decide, by decide, by decide⟩

/-- C3 amended: the debug byte-dump write is not isolated from the
response contract: whenever the pipeline reaches the dump with payload
`p` and the write raises an error `e`, the exception propagates to the
blanket handler and the endpoint returns 500 carrying `e`, instead of
the response a successful write would have produced. -/
theorem debug_write_failure_yields_500 :
    ∀ (env : Env) (file : UploadFile) (year : Int) (img : PILImage)
      (response : ModelResponse) (p : List Nat) (ps : List (List Nat)) (e : String),
      strStartsWith file.content_type "image/" = true →
      file.data ≠ [] →
      env.pilOpen file.data = .ok img →
      env.genai (builtRequest env file img (promptFor year)) = .ok response →
      extractImageParts response = p :: ps →
      env.debugWrite (rawBinName year) p = .error e →
      endpointResponse env file year = .error 500 ("Error processing image: " ++ e) := by
  intro env file year img response p ps e hct hne hopen hgen hp hw
  have hrun : (transformInner env file year).result = .error (.other e) := by
    unfold transformInner
    rw [pipeline_reaches_unwrap env file (promptFor year) (rawBinName year) img response
      hct hne hopen hgen]
    unfold unwrapStage
    simp only [hp, hw]
  rw [endpointResponse_error env file year (.other e) hrun]
  rfl

/-- Witness for C3 amended at a concrete run. -/
theorem debug_write_failure_yields_500_witness :
    endpointResponse demoEnvWriteFail demoFile 1980
      = .error 500 ("Error processing image: " ++ "disk full") :=
  debug_write_failure_yields_500 demoEnvWriteFail demoFile 1980 pngRGB demoResponse [7] []
    "disk full" (by decide) (by decide) rfl rfl (by decide) rfl

/-- C4 counterexample: "if the raw bytes decode as an image the request
succeeds with a 200 response" fails at the final PNG serialization,
which sits outside the inner try of lines 140-146: in `cmykEnv` the
speculative base64 decode of the payload `[6]` raises, the raw bytes are
kept and decode as an image (a CMYK JPEG) — `Image.open`, `verify()` and
the reopen all succeed — yet `new_img.save(format="PNG")` raises
"cannot write mode CMYK as PNG", which flows to the blanket handler and
the endpoint returns 500, not 200. -/
theorem png_save_failure_not_200_cex :
    cmykEnv.b64decode [6] = .error "Invalid base64-encoded string"
    ∧ cmykEnv.pilOpen [6] = .ok cmykJPEG
    ∧ cmykEnv.savePNG cmykJPEG = .error "cannot write mode CMYK as PNG"
    ∧ endpointResponse cmykEnv demoFile 1980
        = .error 500 "Error processing image: cannot write mode CMYK as PNG" := by
  exact ⟨rfl, rfl, rfl, by decide⟩

/-- C4 amended: when the speculative `base64.b64decode` of the selected
payload `p` raises, the original raw bytes are used unchanged (the later
decode is applied to `p` itself) and the base64 failure is never
surfaced (no conclusion mentions the base64 error `e`); if the raw bytes
decode as an image *and* the final PNG serialization succeeds, the
request returns the 200 streaming response; if the serialization raises
(e.g. a mode PNG cannot encode), or the raw bytes do not decode, the
endpoint returns 500 with the corresponding message. -/
theorem base64_fallback_raw_bytes_outcome :
    ∀ (env : Env) (file : UploadFile) (year : Int) (img : PILImage)
      (response : ModelResponse) (p : List Nat) (ps : List (List Nat)) (e : String),
      strStartsWith file.content_type "image/" = true →
      file.data ≠ [] →
      env.pilOpen file.data = .ok img →
      env.genai (builtRequest env file img (promptFor year)) = .ok response →
      extractImageParts response = p :: ps →
      env.debugWrite (rawBinName year) p = .ok () →
      env.b64decode p = .error e →
      (∀ new_img out, env.pilOpen p = .ok new_img → env.savePNG new_img = .ok out →
        endpointResponse env file year
          = .streaming out "image/png"
              ("attachment; filename=time_travel_" ++ toString year ++ ".png"))
      ∧ (∀ new_img e2, env.pilOpen p = .ok new_img → env.savePNG new_img = .error e2 →
        endpointResponse env file year = .error 500 ("Error processing image: " ++ e2))
      ∧ (∀ e2, env.pilOpen p = .error e2 →
        endpointResponse env file year
          = .error 500
              ("Error processing image: " ++ "500: Error processing transformed image: " ++ e2)) := by
  intro env file year img response p ps e hct hne hopen hgen hp hw hb
  have hstage : transformInner env file year
      = unwrapStage env (rawBinName year) (builtRequest env file img (promptFor year))
          response := by
    unfold transformInner
    exact pipeline_reaches_unwrap env file (promptFor year) (rawBinName year) img response
      hct hne hopen hgen
  refine ⟨?_, ?_, ?_⟩
  · intro new_img out hraw hsave
    have hrun : (transformInner env file year).result = .ok out := by
      rw [hstage]
      unfold unwrapStage
      simp only [hp, hw, hb, hraw, hsave]
    exact endpointResponse_ok env file year out hrun
  · intro new_img e2 hraw hsave
    have hrun : (transformInner env file year).result = .error (.other e2) := by
      rw [hstage]
      unfold unwrapStage
      simp only [hp, hw, hb, hraw, hsave]
    rw [endpointResponse_error env file year _ hrun]
    rfl
  · intro e2 hraw
    have hrun : (transformInner env file year).result
        = .error (.http 500 ("Error processing transformed image: " ++ e2)) := by
      rw [hstage]
      unfold unwrapStage
      simp only [hp, hw, hb, hraw]
    rw [endpointResponse_error env file year _ hrun]
    show HandlerResult.error 500
        ("Error processing image: "
          ++ ((toString (500 : Nat) ++ ": ") ++ ("Error processing transformed image: " ++ e2)))
      = _
    rw [← String.append_assoc, ← String.append_assoc]
    congr 1

/-- Witness for C4 amended at a concrete run: in `demoEnv` the base64
decode of the raw PNG payload `[7]` raises, the raw bytes decode and the
PNG serialization succeeds, so the request succeeds. -/
theorem base64_fallback_raw_bytes_outcome_witness :
    endpointResponse demoEnv demoFile 1980
      = .streaming [9] "image/png"
          ("attachment; filename=time_travel_" ++ toString (1980 : Int) ++ ".png") :=
  (base64_fallback_raw_bytes_outcome demoEnv demoFile 1980 pngRGB demoResponse [7] []
    "Invalid base64-encoded string" (by decide) (by decide) rfl rfl (by decide) rfl rfl).1
    pngRGB [9] rfl rfl

/-- C5: when the model response reached by a valid request carries no
inline binary payload, the handler raises the EmptyResult
`HTTPException(500, "No image data found in Gemini API response")` and
the endpoint returns status 500 (re-wrapped by the blanket handler); and
when at least one binary payload exists, exactly one is selected — the
head of the extracted list, which is the first binary part in response
order, the only payload flowing into the rest of the pipeline (witnessed
by the write trace). -/
theorem unwrapper_empty_500_and_first_selected :
    ∀ (env : Env) (file : UploadFile) (year : Int) (img : PILImage)
      (response : ModelResponse),
      strStartsWith file.content_type "image/" = true →
      file.data ≠ [] →
      env.pilOpen file.data = .ok img →
      env.genai (builtRequest env file img (promptFor year)) = .ok response →
      (extractImageParts response = [] →
        endpointResponse env file year
          = .error 500
              "Error processing image: 500: No image data found in Gemini API response")
      ∧ ∀ (p : List Nat) (ps : List (List Nat)), extractImageParts response = p :: ps →
          firstBinary response.parts = some p
          ∧ (transform_image env file year).writes = [(rawBinName year, p)] := by
  intro env file year img response hct hne hopen hgen
  have hstage : transformInner env file year
      = unwrapStage env (rawBinName year) (builtRequest env file img (promptFor year))
          response := by
    unfold transformInner
    exact pipeline_reaches_unwrap env file (promptFor year) (rawBinName year) img response
      hct hne hopen hgen
  constructor
  · intro hp
    have hrun : (transformInner env file year).result
        = .error (.http 500 "No image data found in Gemini API response") := by
      rw [hstage]
      unfold unwrapStage
      rw [hp]
    rw [endpointResponse_error env file year _ hrun]
    decide
  · intro p ps hp
    refine ⟨?_, reached_unwrap_writes env file year img response p ps hct hne hopen hgen hp⟩
    have := extract_head response
    rw [hp] at this
    exact this.symm

/-- Witness for C5 at a concrete run with one binary part. -/
theorem unwrapper_empty_500_and_first_selected_witness :
    firstBinary demoResponse.parts = some [7]
    ∧ (transform_image demoEnv demoFile 1980).writes = [(rawBinName 1980, [7])] :=
  ((unwrapper_empty_500_and_first_selected demoEnv demoFile 1980 pngRGB demoResponse
    (by decide) (by decide) rfl rfl).2 [7] [] (by decide))

/-- C6: every successful request returns the 200 streaming response with
media type `image/png`, the Content-Disposition header
`attachment; filename=time_travel_{year}.png`, and a body that is a
successful PNG serialization of the final decoded image — hence (given
PIL's guarantee that a succeeding `save(format="PNG")` emits PNG bytes,
the `hpng` hypothesis) a body that decodes as PNG. -/
theorem success_response_format :
    ∀ (env : Env) (file : UploadFile) (year : Int) (body : List Nat),
      (transformInner env file year).result = .ok body →
      (∀ (i : PILImage) (b : List Nat), env.savePNG i = .ok b →
        ∃ i2 : PILImage, env.pilOpen b = .ok i2 ∧ i2.format = "PNG") →
      endpointResponse env file year
        = .streaming body "image/png"
            ("attachment; filename=time_travel_" ++ toString year ++ ".png")
      ∧ (endpointResponse env file year).status = 200
      ∧ ∃ i2, env.pilOpen body = .ok i2 ∧ i2.format = "PNG" := by
  intro env file year body hok hpng
  have hresp := endpointResponse_ok env file year body hok
  refine ⟨hresp, by rw [hresp]; rfl, ?_⟩
  obtain ⟨i, hi⟩ := result_ok_savePNG env file (promptFor year) (rawBinName year) body hok
  exact hpng i body hi


/-- Witness for C6 at a concrete run. -/
theorem success_response_format_witness :
    endpointResponse demoEnv demoFile 1980
      = .streaming [9] "image/png"
          ("attachment; filename=time_travel_" ++ toString (1980 : Int) ++ ".png")
    ∧ (endpointResponse demoEnv demoFile 1980).status = 200
    ∧ ∃ i2, demoEnv.pilOpen [9] = .ok i2 ∧ i2.format = "PNG" :=
  success_response_format demoEnv demoFile 1980 [9] rfl
    (fun _ _ hb => (Except.ok.inj hb) ▸ ⟨pngRGB, rfl, rfl⟩)

/-- An RGBA PNG upload declared as `image/png`. -/
def rgbaFile : UploadFile := { content_type := "image/png", data := [2] }

/-- C2 counterexample: an upload whose declared type is `image/png` and
whose detected format is PNG skips the conversion branch entirely, so a
non-RGB (here RGBA) PNG reaches the Gemini call unconverted: the bytes
submitted to the external API are the original `[2]`, which decode as a
PNG in RGBA mode, not RGB.  The Normalizer output therefore does not
always decode as an RGB PNG. -/
theorem normalizer_not_always_rgb_cex :
    (transform_image demoEnv rgbaFile 1980).calls
      = [{ model := "gemini-2.5-flash-image-preview", mime_type := "image/png",
           data := [2], prompt := promptFor 1980 }]
    ∧ normalize demoEnv "image/png" [2] pngRGBA = ([2], "image/png")
    ∧ demoEnv.pilOpen [2] = .ok pngRGBA
    ∧ pngRGBA.mode ≠ "RGB" := by
  refine ⟨by decide, by decide, rfl, by decide⟩

/-- C2 amended: assuming PIL's contract that `convert("RGB")` followed by
`save(format="PNG")` emits bytes decoding as an RGB PNG (`henc`), the
Normalizer output always decodes as a PNG; it additionally decodes as an
RGB PNG whenever the conversion branch runs (declared type outside
`image/png`/`image/jpeg`, or detected format not PNG); but when the
declared type is `image/png`/`image/jpeg` and the detected format is
already PNG, the uploaded bytes pass through byte-for-byte unchanged, so
their color mode is whatever the upload had. -/
theorem normalizer_output_decodes_png :
    ∀ (env : Env) (ct : String) (image_data : List Nat) (img : PILImage),
      (∀ i, ∃ i2, env.pilOpen (env.encodeRGBPNG i) = .ok i2
        ∧ i2.format = "PNG" ∧ i2.mode = "RGB") →
      env.pilOpen image_data = .ok img →
      (∃ i2, env.pilOpen (normalize env ct image_data img).1 = .ok i2 ∧ i2.format = "PNG")
      ∧ ((¬ (ct = "image/png" ∨ ct = "image/jpeg") ∨ img.format ≠ "PNG") →
          ∃ i2, env.pilOpen (normalize env ct image_data img).1 = .ok i2
            ∧ i2.format = "PNG" ∧ i2.mode = "RGB")
      ∧ ((ct = "image/png" ∨ ct = "image/jpeg") → img.format = "PNG" →
          (normalize env ct image_data img).1 = image_data) := by
  intro env ct image_data img henc hopen
  by_cases hct : ct = "image/png" ∨ ct = "image/jpeg"
  · by_cases hfmt : img.format = "PNG"
    · have hnorm : normalize env ct image_data img = (image_data, ct) := by
        unfold normalize
        rw [if_neg (not_not_intro hct), if_neg (not_not_intro hfmt)]
      refine ⟨⟨img, by rw [hnorm]; exact hopen, hfmt⟩, ?_, fun _ _ => by rw [hnorm]⟩
      intro h
      rcases h with h | h
      · exact absurd hct h
      · exact absurd hfmt h
    · have hnorm : normalize env ct image_data img = (env.encodeRGBPNG img, "image/png") := by
        unfold normalize
        rw [if_neg (not_not_intro hct), if_pos hfmt]
      obtain ⟨i2, h1, h2, h3⟩ := henc img
      exact ⟨⟨i2, by rw [hnorm]; exact h1, h2⟩,
        fun _ => ⟨i2, by rw [hnorm]; exact h1, h2, h3⟩,
        fun _ hf => absurd hf hfmt⟩
  · have hnorm : normalize env ct image_data img = (env.encodeRGBPNG img, "image/png") := by
      unfold normalize
      rw [if_pos hct]
    obtain ⟨i2, h1, h2, h3⟩ := henc img
    exact ⟨⟨i2, by rw [hnorm]; exact h1, h2⟩,
      fun _ => ⟨i2, by rw [hnorm]; exact h1, h2, h3⟩,
      fun hc _ => absurd hc hct⟩

/-- Witness for C2 amended: a JPEG upload is converted and its
normalized bytes decode as PNG. -/
theorem normalizer_output_decodes_png_witness :
    ∃ i2, demoEnv.pilOpen (normalize demoEnv "image/jpeg" [5] jpegRGB).1 = .ok i2
      ∧ i2.format = "PNG" :=
  (normalizer_output_decodes_png demoEnv "image/jpeg" [5] jpegRGB
    (fun _ => ⟨pngRGB, rfl, rfl, rfl⟩) rfl).1

/-- An environment mapping where the credential variable exists but is
the empty string. -/
def emptyKeyGetenv : String → Option String := fun s =>
  if s = "GEMINI_API_KEY" then some "" else none

/-- C7 counterexample: the claim says a *present* credential always lets
start-up succeed, but `if not API_KEY:` is Python falsiness: with
`GEMINI_API_KEY` present and equal to the empty string, the variable is
present yet start-up raises and the process serves nothing. -/
theorem present_empty_key_fails_startup_cex :
    emptyKeyGetenv "GEMINI_API_KEY" = some ""
    ∧ startup emptyKeyGetenv = .error "GEMINI_API_KEY not found in .env file"
    ∧ serveRequest emptyKeyGetenv demoEnv demoFile 1980 = none := by
  exact ⟨rfl, rfl, rfl⟩

/-- C7 amended: the credential is read exactly once at start-up (the
read trace is the single read of `GEMINI_API_KEY`); if the variable is
absent the process fails to start and never serves any request; if it is
present *and non-empty* start-up succeeds with that key and requests are
served. -/
theorem startup_key_required :
    ∀ getenv : String → Option String,
      (getenv "GEMINI_API_KEY" = none →
        startup getenv = .error "GEMINI_API_KEY not found in .env file"
        ∧ ∀ (env : Env) (file : UploadFile) (year : Int),
            serveRequest getenv env file year = none)
      ∧ (∀ k, getenv "GEMINI_API_KEY" = some k → k ≠ "" →
          startup getenv = .ok k
          ∧ ∀ (env : Env) (file : UploadFile) (year : Int),
              serveRequest getenv env file year = some (endpointResponse env file year))
      ∧ (startupTraced getenv).2 = ["GEMINI_API_KEY"] := by
  intro getenv
  refine ⟨?_, ?_, rfl⟩
  · intro h
    have hs : startup getenv = .error "GEMINI_API_KEY not found in .env file" := by
      unfold startup startupTraced
      rw [h]
    exact ⟨hs, fun env file year => by unfold serveRequest; rw [hs]⟩
  · intro k hk hne
    have hs : startup getenv = .ok k := by
      unfold startup startupTraced
      rw [hk]
      simp [hne]
    exact ⟨hs, fun env file year => by unfold serveRequest; rw [hs]⟩

/-- Witness for C7 amended: absent variable refuses to serve; a
non-empty key starts up. -/
theorem startup_key_required_witness :
    (startup (fun _ => none) = .error "GEMINI_API_KEY not found in .env file"
      ∧ serveRequest (fun _ => none) demoEnv demoFile 1980 = none)
    ∧ startup (fun _ => some "secret") = .ok "secret" :=
  ⟨⟨((startup_key_required (fun _ => none)).1 rfl).1,
    ((startup_key_required (fun _ => none)).1 rfl).2 demoEnv demoFile 1980⟩,
   ((startup_key_required (fun _ => some "secret")).2.1 "secret" rfl (by decide)).1⟩

/-- C10 (implicit frame effect): when the declared content type is
`image/png` or `image/jpeg` and PIL detects the upload's format as PNG,
the normalization branch of lines 79-84 does nothing — no RGB
conversion, no re-encode — and every Gemini call of the request carries
the uploaded bytes byte-for-byte together with the declared type.  This
is how non-RGB modes (RGBA, palette) pass through as-is. -/
theorem png_passthrough :
    ∀ (env : Env) (file : UploadFile) (year : Int) (img : PILImage),
      (file.content_type = "image/png" ∨ file.content_type = "image/jpeg") →
      env.pilOpen file.data = .ok img →
      img.format = "PNG" →
      normalize env file.content_type file.data img = (file.data, file.content_type)
      ∧ ∀ r ∈ (transform_image env file year).calls,
          r.data = file.data ∧ r.mime_type = file.content_type := by
  intro env file year img hct hopen hfmt
  have hnorm : normalize env file.content_type file.data img
      = (file.data, file.content_type) := by
    unfold normalize
    rw [if_neg (not_not_intro hct), if_neg (not_not_intro hfmt)]
  refine ⟨hnorm, fun r hr => ?_⟩
  rw [transform_image_calls] at hr
  obtain ⟨img2, hopen2, hreq⟩ := calls_shape env file (promptFor year) (rawBinName year) r hr
  have himg : img2 = img := Except.ok.inj (hopen2.symm.trans hopen)
  rw [hreq, himg]
  unfold builtRequest
  rw [hnorm]
  exact ⟨rfl, rfl⟩

/-- Witness for C10 at a concrete run: the call issued for the RGB PNG
upload carries the original upload bytes and declared type. -/
theorem png_passthrough_witness :
    ({ model := "gemini-2.5-flash-image-preview", mime_type := "image/png", data := [1],
       prompt := promptFor 1980 } : ModelRequest).data = demoFile.data
    ∧ ({ model := "gemini-2.5-flash-image-preview", mime_type := "image/png", data := [1],
         prompt := promptFor 1980 } : ModelRequest).mime_type = demoFile.content_type :=
  (png_passthrough demoEnv demoFile 1980 pngRGB (Or.inl rfl) rfl rfl).2 _ (by decide)

end TimeTravel
